import Mathlib

/-!
Shallow embedding of the batch-classification core of the ai_dec repository.

Modelled source files:
* src/ai_agents/hs_agent.py   — HSCodeAgent.classify_single_item, HSCodeAgent.classify_batch
* src/database_manager.py     — DatabaseManager.update_result_user_status
* src/data_processor.py       — DataProcessor.prepare_items_for_processing,
                                DataProcessor.process_data_with_ai,
                                DataProcessor.calculate_confidence_stats
* src/config.py               — BATCH_SIZE, confidence thresholds

External effects (the OpenAI agent call, sqlite, pandas) are represented by
oracles passed as function arguments; machine integers are Nat/Int and Python
float division over integer counts is represented exactly by ℚ.
-/

namespace AIDec

/-! ### Configuration constants (src/config.py) -/

/-- BATCH_SIZE = 10 (config.py line 38): number of items classified in parallel per chunk. -/
def BATCH_SIZE : Nat := 10

/-- DEFAULT_CONFIDENCE_THRESHOLD = 80 (config.py line 36): high-confidence cutoff. -/
def DEFAULT_CONFIDENCE_THRESHOLD : Nat := 80

/-- MIN_CONFIDENCE_THRESHOLD = 40 (config.py line 37): medium-tier floor. -/
def MIN_CONFIDENCE_THRESHOLD : Nat := 40

/-! ### Data model (src/ai_agents/hs_agent.py) -/

/-- HSCodeSearchResult (hs_agent.py lines 36-45).  `confidence` is a pydantic
integer field with ge=0, le=100; it is modelled as Nat (the upper bound is
never used by the orchestration logic). -/
structure HSCodeSearchResult where
  hs_code : String
  confidence : Nat
  description : String
  reasoning : String
  alternative_codes : List String
deriving Repr, DecidableEq, Inhabited

/-- Outcome of `Runner.run` inside classify_single_item (hs_agent.py lines 171-179):
either a well-formed structured output, a final_output that is not an
HSCodeSearchResult (carried as its `str()` rendering), or a raised exception
(carried as its `str()` rendering). -/
inductive RunnerOutcome where
  | output : HSCodeSearchResult → RunnerOutcome
  | malformed : String → RunnerOutcome
  | raised : String → RunnerOutcome
deriving Repr, DecidableEq

/-- HSCodeAgent.classify_single_item (hs_agent.py lines 138-200), as a function of
the Runner outcome.  The request-building prelude (lines 153-167) only shapes the
prompt handed to the external agent, which the RunnerOutcome oracle already
abstracts, so it does not appear here. -/
def classify_single_item : RunnerOutcome → HSCodeSearchResult
  | RunnerOutcome.output r => r
  | RunnerOutcome.malformed s =>
      { hs_code := "0000.00.000"
        confidence := 10
        description := "Ошибка обработки - не удалось получить структурированный результат"
        reasoning := "Агент вернул: " ++ s
        alternative_codes := [] }
  | RunnerOutcome.raised e =>
      { hs_code := "0000.00.000"
        confidence := 0
        description := "Ошибка классификации"
        reasoning := "Произошла ошибка при обработке: " ++ e
        alternative_codes := [] }

/-- One element of the `items` list handed to classify_batch: the dict built by
prepare_items_for_processing (data_processor.py lines 258-286).  The auxiliary
columns copied into the dict (data_processor.py lines 263-283) only enrich the
prompt of the external call, which the per-item oracle already abstracts, so the
model keeps the two fields the orchestration logic reads. -/
structure Item where
  row_index : Nat
  product_name : String
deriving Repr, DecidableEq, Inhabited

/-- Outcome of one slot of `asyncio.gather(*tasks, return_exceptions=True)`
(hs_agent.py line 257): either the HSCodeSearchResult returned by the task or an
exception object (carried as its `str()` rendering).  With return_exceptions=True
the gather call itself returns normally, so the dead `except` arm at hs_agent.py
line 285 has no reachable counterpart here. -/
inductive CallOutcome where
  | ok : HSCodeSearchResult → CallOutcome
  | exc : String → CallOutcome
deriving Repr, DecidableEq

/-- Error string appended for a failed item (hs_agent.py line 262); `k` is the
0-based global index, the message shows `i+j+1`, the 1-based one. -/
def errorMsgFor (k : Nat) (msg : String) : String :=
  "Ошибка обработки элемента " ++ toString (k + 1) ++ ": " ++ msg

/-- Placeholder result substituted for an item whose gather slot holds an
exception (hs_agent.py lines 266-271). -/
def batchExceptionSentinel (msg : String) : HSCodeSearchResult :=
  { hs_code := "0000.00.000"
    confidence := 0
    description := "Ошибка обработки"
    reasoning := "Исключение: " ++ msg
    alternative_codes := [] }

/-- Per-slot handling in the result loop (hs_agent.py lines 260-274): a result is
appended verbatim; an exception is replaced by the sentinel and an error string
is recorded. -/
def handleOutcome (k : Nat) : CallOutcome → HSCodeSearchResult × Option String
  | CallOutcome.ok r => (r, none)
  | CallOutcome.exc msg => (batchExceptionSentinel msg, some (errorMsgFor k msg))

/-- total_batches (hs_agent.py line 232): `(len(items) + batch_size - 1) // batch_size`. -/
def total_batches (n : Nat) : Nat := (n + BATCH_SIZE - 1) / BATCH_SIZE

/-- The outcome the oracle assigns to global item `k`; the task at slot `k` is
built from `items[k]` (hs_agent.py lines 241-250), so the oracle receives that
item. -/
def itemOutcome (items : List Item) (call : Nat → Item → CallOutcome) (k : Nat) : CallOutcome :=
  call k (items.getD k { row_index := 0, product_name := "" })

/-- The chunk loop of classify_batch (hs_agent.py lines 235-283), iterated over
the precomputed chunk count (the Python loop runs `range(0, len(items),
batch_size)`, i.e. exactly `total_batches` iterations).  `off` is the chunk
start `i`; each chunk covers `items[i : i+BATCH_SIZE]`.  Returns the
(result, optional error) pairs in order and the trace of progress-callback
invocations `(min(i + batch_size, total), total)` (hs_agent.py line 278). -/
def classifyChunksGo (items : List Item) (call : Nat → Item → CallOutcome) (total : Nat) :
    Nat → Nat → List (HSCodeSearchResult × Option String) × List (Nat × Nat)
  | 0, _ => ([], [])
  | c + 1, off =>
      let len := min BATCH_SIZE (total - off)
      let chunk := (List.range len).map fun j =>
        handleOutcome (off + j) (itemOutcome items call (off + j))
      let rest := classifyChunksGo items call total c (off + len)
      (chunk ++ rest.1, (min (off + BATCH_SIZE) total, total) :: rest.2)

/-- processing_stats dict of classify_batch (hs_agent.py lines 304-313). -/
structure ProcessingStats where
  total_items : Nat
  successful_classifications : Nat
  high_confidence_results : Nat
  average_confidence : ℚ
  processing_errors : Nat
deriving Repr, DecidableEq

/-- BatchProcessingResult (hs_agent.py lines 48-52), extended with the trace of
progress-callback invocations, which the Python code performs as a side effect
(hs_agent.py lines 276-283). -/
structure BatchProcessingResult where
  results : List HSCodeSearchResult
  processing_stats : ProcessingStats
  errors : List String
  progressTrace : List (Nat × Nat)
deriving Repr, DecidableEq

/-- HSCodeAgent.classify_batch (hs_agent.py lines 202-322).  `call` is the oracle
for each item-level classification outcome; `cbRaises` says whether the progress
callback raises at a given chunk — the `except` at hs_agent.py lines 282-283
swallows such an exception, so the output does not depend on it. -/
def classify_batch (items : List Item) (call : Nat → Item → CallOutcome)
    (cbRaises : Nat → Bool) : BatchProcessingResult :=
  let n := items.length
  let run := classifyChunksGo items call n (total_batches n) 0
  let results := run.1.map Prod.fst
  let errors := run.1.filterMap Prod.snd
  let successful := results.filter fun r => 0 < r.confidence
  let high := successful.filter fun r => DEFAULT_CONFIDENCE_THRESHOLD ≤ r.confidence
  { results := results
    processing_stats :=
      { total_items := n
        successful_classifications := successful.length
        high_confidence_results := high.length
        average_confidence :=
          if successful.isEmpty then 0
          else (successful.map fun r => (r.confidence : ℚ)).sum / (successful.length : ℚ)
        processing_errors := errors.length }
    errors := errors
    progressTrace := run.2 }

/-! ### Database layer (src/database_manager.py) -/

/-- One row of the classification_results table, restricted to the columns the
UPDATE of update_result_user_status touches (database_manager.py lines 346-350)
plus `id`; the remaining columns are never read or written by that function. -/
structure ClassificationRow where
  id : Nat
  user_status : String
  user_notes : Option String
  updated_at : Nat
deriving Repr, DecidableEq

/-- valid_statuses (database_manager.py line 339). -/
def valid_statuses : List String := ["pending", "confirmed", "needs_review", "rejected"]

/-- DatabaseManager.update_result_user_status (database_manager.py lines 322-359).
Returns the table after the call together with either the ValueError raised for
an invalid status (the raise happens before any database access, so the table is
returned untouched) or the Bool the function returns.  `now` stands for
CURRENT_TIMESTAMP.  The SQL UPDATE matches rows with `id = result_id`;
`cursor.rowcount` is the number of matched rows.  The `except` arm at lines
357-359 catches sqlite errors, which this pure table model does not produce. -/
def update_result_user_status (now : Nat) (db : List ClassificationRow)
    (result_id : Nat) (user_status : String) (user_notes : Option String) :
    List ClassificationRow × Except String Bool :=
  if user_status ∈ valid_statuses then
    let db2 := db.map fun r =>
      if r.id = result_id then
        { r with user_status := user_status, user_notes := user_notes, updated_at := now }
      else r
    let rowcount := (db.filter fun r => r.id = result_id).length
    if 0 < rowcount then (db2, Except.ok true) else (db2, Except.ok false)
  else
    (db, Except.error ("Недопустимый статус: " ++ user_status))

/-! ### Data processor (src/data_processor.py) -/

/-- Python str.strip(): drop leading and trailing whitespace, modelled on the
character list of the string. -/
def pyStrip (s : String) : String :=
  String.mk (((s.data.dropWhile Char.isWhitespace).reverse.dropWhile Char.isWhitespace).reverse)

/-- DataProcessor.prepare_items_for_processing (data_processor.py lines 217-289).
A row of the mapped DataFrame is a column-name → cell-text association list;
a missing or NaN cell reads as the empty string (lines 249-252).  A row whose
main-column value is blank after strip() is skipped (lines 254-256); otherwise an
item carrying the row index and product name is emitted.  The auxiliary-field
enrichment (lines 263-283) is not modelled (see `Item`).  The main column is
assumed present in the mapping; when it is not, the function raises and
process_data_with_ai marks the session failed through its generic handler. -/
def prepare_items_for_processing (data : List (List (String × String)))
    (main_column : String) : List Item :=
  data.enum.filterMap fun p =>
    let product_name := pyStrip ((p.2.lookup main_column).getD "")
    if product_name = "" then none
    else some { row_index := p.1, product_name := product_name }

/-- The three per-tier counts written to a Session row.  Int mirrors Python int
subtraction in process_data_with_ai (data_processor.py lines 354-358). -/
structure ConfidenceStats where
  high : Int
  medium : Int
  low : Int
deriving Repr, DecidableEq

/-- confidence_stats as computed and persisted by process_data_with_ai
(data_processor.py lines 353-358): high = high_confidence_results,
medium = successful_classifications - high_confidence_results,
low = total_items - successful_classifications. -/
def persisted_confidence_stats (stats : ProcessingStats) : ConfidenceStats :=
  { high := (stats.high_confidence_results : Int)
    medium := (stats.successful_classifications : Int) - (stats.high_confidence_results : Int)
    low := (stats.total_items : Int) - (stats.successful_classifications : Int) }

/-- DataProcessor.calculate_confidence_stats (data_processor.py lines 442-455),
as a fold over the confidence_percentage values: confidence ≥ 80 is high,
otherwise ≥ 40 is medium, otherwise low. -/
def calculate_confidence_stats (confs : List Nat) : ConfidenceStats :=
  confs.foldl
    (fun s confidence =>
      if 80 ≤ confidence then { s with high := s.high + 1 }
      else if 40 ≤ confidence then { s with medium := s.medium + 1 }
      else { s with low := s.low + 1 })
    { high := 0, medium := 0, low := 0 }

/-- Observable outcome of one process_data_with_ai call: the success flag and
error message of the returned dict, the final status written to the session row,
and the per-tier counts written to it (none when the run fails, since the failed
branches update only the status). -/
structure ProcessOutcome where
  success : Bool
  error : Option String
  session_status : String
  persisted_stats : Option ConfidenceStats
deriving Repr, DecidableEq

/-- DataProcessor.process_data_with_ai (data_processor.py lines 291-440), control
flow and session-store effects.  A session is created with status `processing`
(line 314); no prepared items marks it failed with the descriptive error of line
330; otherwise classify_batch runs, and a result list that is empty or carries
any error marks the session failed (lines 336-347); the success path persists the
confidence_stats of lines 353-358 and status `completed` (lines 362-370).  The
DataFrame/export post-processing (lines 349-428) and the generic exception
handler (lines 430-440) have no bearing on the claims settled here. -/
def process_data_with_ai (data : List (List (String × String))) (main_column : String)
    (call : Nat → Item → CallOutcome) (cbRaises : Nat → Bool) : ProcessOutcome :=
  let items := prepare_items_for_processing data main_column
  if items.isEmpty then
    { success := false
      error := some ("Нет данных для обработки")
      session_status := "failed"
      persisted_stats := none }
  else
    let batch_result := classify_batch items call cbRaises
    if batch_result.results.isEmpty || !batch_result.errors.isEmpty then
      { success := false
        error := some
          (if batch_result.errors.isEmpty then "Нет результатов обработки"
           else "Ошибка AI агента: " ++ String.intercalate ("; ") batch_result.errors)
        session_status := "failed"
        persisted_stats := none }
    else
      { success := true
        error := none
        session_status := "completed"
        persisted_stats := some (persisted_confidence_stats batch_result.processing_stats) }

/-! ### Closed forms for the chunk loop -/

theorem classifyChunksGo_fst (items : List Item) (call : Nat → Item → CallOutcome)
    (total : Nat) :
    ∀ c off, c = (total - off + 9) / 10 →
      (classifyChunksGo items call total c off).1 =
        (List.range (total - off)).map
          fun j => handleOutcome (off + j) (itemOutcome items call (off + j)) := by
  intro c
  induction c with
  | zero =>
      intro off h
      have h0 : total - off = 0 := by omega
      simp [classifyChunksGo, h0]
  | succ c ih =>
      intro off h
      simp only [classifyChunksGo, BATCH_SIZE]
      rw [ih (off + min 10 (total - off)) (by omega)]
      have hsplit : total - off = min 10 (total - off) + (total - (off + min 10 (total - off))) := by
        omega
      conv_rhs => rw [hsplit, List.range_add]
      rw [List.map_append, List.map_map]
      congr 1
      apply List.map_congr_left
      intro j hj
      simp only [Function.comp_apply]
      rw [Nat.add_assoc]

theorem classifyChunksGo_snd (items : List Item) (call : Nat → Item → CallOutcome)
    (total : Nat) :
    ∀ c off, c = (total - off + 9) / 10 →
      (classifyChunksGo items call total c off).2 =
        (List.range c).map fun k => (min (off + (k + 1) * 10) total, total) := by
  intro c
  induction c with
  | zero =>
      intro off h
      simp [classifyChunksGo]
  | succ c ih =>
      intro off h
      simp only [classifyChunksGo, BATCH_SIZE]
      rw [ih (off + min 10 (total - off)) (by omega)]
      rw [List.range_succ_eq_map, List.map_cons, List.map_map]
      congr 1
      apply List.map_congr_left
      intro a ha
      simp only [Function.comp_apply, Nat.succ_eq_add_one]
      congr 1
      omega

theorem classify_batch_results_eq (items : List Item) (call : Nat → Item → CallOutcome)
    (cbRaises : Nat → Bool) :
    (classify_batch items call cbRaises).results =
      (List.range items.length).map
        fun k => (handleOutcome k (itemOutcome items call k)).1 := by
  show ((classifyChunksGo items call items.length (total_batches items.length) 0).1.map
      Prod.fst) = _
  rw [classifyChunksGo_fst items call items.length (total_batches items.length) 0
    (by simp [total_batches, BATCH_SIZE])]
  simp [List.map_map, Function.comp_def]

theorem classify_batch_errors_eq (items : List Item) (call : Nat → Item → CallOutcome)
    (cbRaises : Nat → Bool) :
    (classify_batch items call cbRaises).errors =
      (List.range items.length).filterMap
        fun k => (handleOutcome k (itemOutcome items call k)).2 := by
  show ((classifyChunksGo items call items.length (total_batches items.length) 0).1.filterMap
      Prod.snd) = _
  rw [classifyChunksGo_fst items call items.length (total_batches items.length) 0
    (by simp [total_batches, BATCH_SIZE])]
  rw [List.filterMap_map]
  simp [Function.comp_def]

theorem classify_batch_trace_eq (items : List Item) (call : Nat → Item → CallOutcome)
    (cbRaises : Nat → Bool) :
    (classify_batch items call cbRaises).progressTrace =
      (List.range (total_batches items.length)).map
        fun k => (min ((k + 1) * 10) items.length, items.length) := by
  show (classifyChunksGo items call items.length (total_batches items.length) 0).2 = _
  rw [classifyChunksGo_snd items call items.length (total_batches items.length) 0
    (by simp [total_batches, BATCH_SIZE])]
  simp

/-! ### Concrete fixtures used by witnesses -/

/-- A progress callback that never raises. -/
def cbFalse : Nat → Bool := fun _ => false

/-- A well-formed classification output with the given confidence. -/
def mkOkResult (c : Nat) : HSCodeSearchResult :=
  { hs_code := "8517.12.000"
    confidence := c
    description := "телефоны сотовой связи"
    reasoning := "анализ товара"
    alternative_codes := [] }

/-- Four prepared items. -/
def items4 : List Item :=
  [{ row_index := 0, product_name := "смартфон" },
   { row_index := 1, product_name := "кофе" },
   { row_index := 2, product_name := "неизвестно" },
   { row_index := 3, product_name := "шины" }]

/-- Oracle giving the confidence pattern [90, 50, 0, 80] of spec property P5. -/
def call4 : Nat → Item → CallOutcome := fun k _ => CallOutcome.ok (mkOkResult ([90, 50, 0, 80].getD k 0))

/-- Oracle whose call for global item 1 raises and all others succeed. -/
def callExc1 : Nat → Item → CallOutcome := fun k _ =>
  if k = 1 then CallOutcome.exc ("boom") else CallOutcome.ok (mkOkResult 90)

/-- Twenty-five identical items: three chunks of sizes 10, 10, 5. -/
def items25 : List Item := List.replicate 25 { row_index := 0, product_name := "товар" }

/-! ### Claims -/

/-- C1: for every input list and every pattern of per-item call outcomes,
classify_batch returns exactly one result per submitted item, in input order:
the result list has the length of the input list, and the entry at each index
k is the ClassificationResult obtained by handling the call outcome of
items[k] — no item is dropped or reordered. -/
theorem C1_batch_alignment (items : List Item) (call : Nat → Item → CallOutcome)
    (cbRaises : Nat → Bool) :
    (classify_batch items call cbRaises).results.length = items.length ∧
    ∀ k, k < items.length →
      (classify_batch items call cbRaises).results[k]? =
        some ((handleOutcome k (itemOutcome items call k)).1) := by
  constructor
  · rw [classify_batch_results_eq]
    simp
  · intro k hk
    rw [classify_batch_results_eq]
    simp [List.getElem?_map, List.getElem?_range, hk]

/-- C1 witness at a concrete four-item batch. -/
theorem C1_batch_alignment_witness :
    (classify_batch items4 call4 cbFalse).results[2]? =
      some ((handleOutcome 2 (itemOutcome items4 call4 2)).1) :=
  (C1_batch_alignment items4 call4 cbFalse).2 2 (by decide)

/-- C2: when the classification call of item k raises, classify_batch puts the
zero-confidence sentinel at position k, records an error string that contains
the 1-based global index k+1, and every other position still carries the result
of its own outcome, with nothing dropped: single-item failure never escapes nor
stops the batch. -/
theorem C2_item_failure_isolated (items : List Item) (call : Nat → Item → CallOutcome)
    (cbRaises : Nat → Bool) (k : Nat) (msg : String)
    (hk : k < items.length) (hexc : itemOutcome items call k = CallOutcome.exc msg) :
    (classify_batch items call cbRaises).results[k]? = some (batchExceptionSentinel msg) ∧
    errorMsgFor k msg ∈ (classify_batch items call cbRaises).errors ∧
    (∃ pre post : String, errorMsgFor k msg = pre ++ toString (k + 1) ++ post) ∧
    (classify_batch items call cbRaises).results.length = items.length ∧
    (∀ k2, k2 < items.length →
      (classify_batch items call cbRaises).results[k2]? =
        some ((handleOutcome k2 (itemOutcome items call k2)).1)) := by
  refine ⟨?_, ?_, ?_, ?_, ?_⟩
  · rw [classify_batch_results_eq]
    simp [List.getElem?_map, List.getElem?_range, hk, hexc, handleOutcome]
  · rw [classify_batch_errors_eq]
    refine List.mem_filterMap.mpr ⟨k, ?_, ?_⟩
    · simpa using hk
    · simp [hexc, handleOutcome]
  · refine ⟨"Ошибка обработки элемента ", ": " ++ msg, ?_⟩
    show ("Ошибка обработки элемента " ++ toString (k + 1)) ++ ": " ++ msg = _
    rw [String.append_assoc]
  · rw [classify_batch_results_eq]
    simp
  · intro k2 hk2
    rw [classify_batch_results_eq]
    simp [List.getElem?_map, List.getElem?_range, hk2]

/-- C2 witness: item 1 of a four-item batch raises. -/
theorem C2_item_failure_isolated_witness :
    errorMsgFor 1 ("boom") ∈ (classify_batch items4 callExc1 cbFalse).errors :=
  (C2_item_failure_isolated items4 callExc1 cbFalse 1 ("boom") (by decide) (by decide)).2.1

/-- C5: classify_batch on the empty item list returns (without any failure) the
empty result list, the empty error list, all-zero statistics and an empty
progress trace. -/
theorem C5_empty_batch (call : Nat → Item → CallOutcome) (cbRaises : Nat → Bool) :
    classify_batch [] call cbRaises =
      { results := []
        errors := []
        processing_stats :=
          { total_items := 0
            successful_classifications := 0
            high_confidence_results := 0
            average_confidence := 0
            processing_errors := 0 }
        progressTrace := [] } := rfl

/-- C6: with a progress callback supplied, classify_batch invokes it exactly once
per chunk with arguments (min(chunk_start + BATCH_SIZE, total), total); the
processed-count arguments are non-decreasing along the trace, the final
invocation reports exactly the input length (for a non-empty batch), and a
callback that raises changes nothing about the output. -/
theorem C6_progress_callback (items : List Item) (call : Nat → Item → CallOutcome)
    (cbRaises : Nat → Bool) :
    (classify_batch items call cbRaises).progressTrace =
      (List.range (total_batches items.length)).map
        (fun k => (min ((k + 1) * BATCH_SIZE) items.length, items.length)) ∧
    List.Pairwise (fun p q : Nat × Nat => p.1 ≤ q.1)
      (classify_batch items call cbRaises).progressTrace ∧
    (items ≠ [] →
      (classify_batch items call cbRaises).progressTrace.getLast? =
        some (items.length, items.length)) ∧
    (∀ cb2, classify_batch items call cb2 = classify_batch items call cbRaises) := by
  refine ⟨?_, ?_, ?_, fun _ => rfl⟩
  · rw [classify_batch_trace_eq]
    simp [BATCH_SIZE]
  · rw [classify_batch_trace_eq]
    rw [List.pairwise_map]
    apply List.Pairwise.imp ?_ (List.pairwise_lt_range (total_batches items.length))
    intro a b hab
    simp only []
    have : min ((a + 1) * 10) items.length ≤ min ((b + 1) * 10) items.length := by omega
    exact this
  · intro hne
    rw [classify_batch_trace_eq]
    have hn : 0 < items.length := List.length_pos.mpr hne
    have hm : total_batches items.length = (total_batches items.length - 1) + 1 := by
      simp only [total_batches, BATCH_SIZE]
      omega
    rw [hm, List.range_succ, List.map_append, List.map_cons, List.map_nil,
      List.getLast?_concat]
    have hfin : min ((total_batches items.length - 1 + 1) * 10) items.length = items.length := by
      simp only [total_batches, BATCH_SIZE]
      omega
    rw [hfin]

/-- C6 witness: 25 items give the trace (10,25), (20,25), (25,25), whose final
entry reports the full input length. -/
theorem C6_progress_callback_witness :
    (classify_batch items25 call4 cbFalse).progressTrace.getLast? = some (25, 25) := by
  have h := (C6_progress_callback items25 call4 cbFalse).2.2.1 (by decide)
  simpa [items25] using h

/-- C3 counterexample: a malformed model output (final_output that is not an
HSCodeSearchResult) is substituted with confidence 10, not the claimed
confidence 0 — hs_agent.py lines 184-189. -/
theorem C3_sentinel_counterexample :
    (classify_single_item (RunnerOutcome.malformed ("None"))).hs_code = "0000.00.000" ∧
    (classify_single_item (RunnerOutcome.malformed ("None"))).confidence = 10 ∧
    ¬ (classify_single_item (RunnerOutcome.malformed ("None"))).confidence = 0 :=
  ⟨rfl, rfl, by decide⟩

/-- C3 amended: an exception inside classify_single_item and an exception seen by
classify_batch are both substituted with the hs_code "0000.00.000", confidence 0
sentinel carrying descriptive failure text in reasoning; a malformed model
output is substituted with hs_code "0000.00.000" but confidence 10, with the
failure text in reasoning. -/
theorem C3_failure_substitution_amended :
    (∀ e, classify_single_item (RunnerOutcome.raised e) =
      { hs_code := "0000.00.000"
        confidence := 0
        description := "Ошибка классификации"
        reasoning := "Произошла ошибка при обработке: " ++ e
        alternative_codes := [] }) ∧
    (∀ s, classify_single_item (RunnerOutcome.malformed s) =
      { hs_code := "0000.00.000"
        confidence := 10
        description := "Ошибка обработки - не удалось получить структурированный результат"
        reasoning := "Агент вернул: " ++ s
        alternative_codes := [] }) ∧
    (∀ msg, batchExceptionSentinel msg =
      { hs_code := "0000.00.000"
        confidence := 0
        description := "Ошибка обработки"
        reasoning := "Исключение: " ++ msg
        alternative_codes := [] }) :=
  ⟨fun _ => rfl, fun _ => rfl, fun _ => rfl⟩

/-- C4: the aggregate statistics of classify_batch count successes as results
with confidence > 0 and high confidence as results with confidence ≥ 80 (the
code counts the latter inside the successes, which coincides), and
average_confidence is the exact mean of the successful confidences, 0 when none
succeed; on the confidence pattern [90, 50, 0, 80] this gives 3 successful, 2
high-confidence, and average 220/3. -/
theorem C4_batch_statistics (items : List Item) (call : Nat → Item → CallOutcome)
    (cbRaises : Nat → Bool) :
    ((classify_batch items call cbRaises).processing_stats.total_items = items.length) ∧
    ((classify_batch items call cbRaises).processing_stats.successful_classifications =
      ((classify_batch items call cbRaises).results.filter fun r => 0 < r.confidence).length) ∧
    ((classify_batch items call cbRaises).processing_stats.high_confidence_results =
      ((classify_batch items call cbRaises).results.filter fun r => 80 ≤ r.confidence).length) ∧
    (((classify_batch items call cbRaises).results.filter fun r => 0 < r.confidence) = [] →
      (classify_batch items call cbRaises).processing_stats.average_confidence = 0) ∧
    (((classify_batch items call cbRaises).results.filter fun r => 0 < r.confidence) ≠ [] →
      (classify_batch items call cbRaises).processing_stats.average_confidence =
        (((classify_batch items call cbRaises).results.filter fun r => 0 < r.confidence).map
            fun r => (r.confidence : ℚ)).sum /
          ((((classify_batch items call cbRaises).results.filter
              fun r => 0 < r.confidence).length : ℚ))) ∧
    ((classify_batch items4 call4 cbFalse).processing_stats.successful_classifications = 3 ∧
      (classify_batch items4 call4 cbFalse).processing_stats.high_confidence_results = 2 ∧
      (classify_batch items4 call4 cbFalse).processing_stats.average_confidence = 220 / 3) := by
  refine ⟨rfl, rfl, ?_, ?_, ?_, rfl, rfl, ?_⟩
  · show (((classify_batch items call cbRaises).results.filter
        fun r => 0 < r.confidence).filter
        fun r => DEFAULT_CONFIDENCE_THRESHOLD ≤ r.confidence).length = _
    rw [List.filter_filter]
    congr 1
    apply List.filter_congr
    intro r _
    simp only [DEFAULT_CONFIDENCE_THRESHOLD]
    by_cases hc : (80 : Nat) ≤ r.confidence
    · have h0 : 0 < r.confidence := by omega
      simp [hc, h0]
    · simp [hc]
  · intro h
    show (if ((classify_batch items call cbRaises).results.filter
        fun r => 0 < r.confidence).isEmpty then (0 : ℚ) else _) = 0
    rw [h]
    rfl
  · intro h
    show (if ((classify_batch items call cbRaises).results.filter
        fun r => 0 < r.confidence).isEmpty then (0 : ℚ) else _) = _
    rw [if_neg (by simpa [List.isEmpty_iff] using h)]
    rfl
  · have h : (classify_batch items4 call4 cbFalse).processing_stats.average_confidence
        = (((90 : Nat) : ℚ) + (((50 : Nat) : ℚ) + (((80 : Nat) : ℚ) + 0))) / ((3 : Nat) : ℚ) := rfl
    rw [h]
    norm_num

/-- C4 witness: the mean formula instantiated on the four-item P5 batch. -/
theorem C4_batch_statistics_witness :
    (classify_batch items4 call4 cbFalse).processing_stats.average_confidence =
      (((classify_batch items4 call4 cbFalse).results.filter fun r => 0 < r.confidence).map
          fun r => (r.confidence : ℚ)).sum /
        (((classify_batch items4 call4 cbFalse).results.filter
            fun r => 0 < r.confidence).length : ℚ) :=
  (C4_batch_statistics items4 call4 cbFalse).2.2.2.2.1 (by decide)

/-- C7: updating a result to a user_status outside the four allowed values is
rejected with the ValueError raised before any database access, and the stored
table — every row, including user_status, user_notes and updated_at — is
returned exactly as it was. -/
theorem C7_invalid_status_rejected (now : Nat) (db : List ClassificationRow)
    (result_id : Nat) (user_status : String) (user_notes : Option String)
    (h : user_status ∉ valid_statuses) :
    update_result_user_status now db result_id user_status user_notes =
      (db, Except.error ("Недопустимый статус: " ++ user_status)) := by
  unfold update_result_user_status
  rw [if_neg h]

/-- C7 witness: the status "approved" is rejected and the single stored row is
untouched. -/
theorem C7_invalid_status_rejected_witness :
    update_result_user_status 0
        [{ id := 1, user_status := "pending", user_notes := none, updated_at := 0 }]
        1 "approved" none =
      ([{ id := 1, user_status := "pending", user_notes := none, updated_at := 0 }],
        Except.error ("Недопустимый статус: " ++ "approved")) :=
  C7_invalid_status_rejected 0
    [{ id := 1, user_status := "pending", user_notes := none, updated_at := 0 }]
    1 "approved" none (by decide)

/-- C10: with a valid user_status, an update whose result_id matches no stored
row leaves the table unchanged and returns false rather than raising; the update
returns true exactly when some stored row has the requested id. -/
theorem C10_update_miss (now : Nat) (db : List ClassificationRow) (result_id : Nat)
    (user_status : String) (user_notes : Option String)
    (hvalid : user_status ∈ valid_statuses) :
    ((∀ r ∈ db, r.id ≠ result_id) →
      update_result_user_status now db result_id user_status user_notes =
        (db, Except.ok false)) ∧
    ((update_result_user_status now db result_id user_status user_notes).2 =
        Except.ok true ↔ ∃ r ∈ db, r.id = result_id) := by
  have key : (0 < (db.filter fun r => r.id = result_id).length) ↔
      ∃ r ∈ db, r.id = result_id := by
    rw [List.length_pos_iff_exists_mem]
    constructor
    · rintro ⟨r, hr⟩
      rw [List.mem_filter] at hr
      exact ⟨r, hr.1, by simpa using hr.2⟩
    · rintro ⟨r, hr, hid⟩
      exact ⟨r, List.mem_filter.mpr ⟨hr, by simpa using hid⟩⟩
  constructor
  · intro hmiss
    unfold update_result_user_status
    rw [if_pos hvalid]
    have hfil : (db.filter fun r => r.id = result_id) = [] := by
      rw [List.filter_eq_nil_iff]
      intro r hr
      simpa using hmiss r hr
    have hmap : (db.map fun r =>
        if r.id = result_id then
          { r with user_status := user_status, user_notes := user_notes, updated_at := now }
        else r) = db := by
      conv_rhs => rw [← List.map_id db]
      apply List.map_congr_left
      intro r hr
      rw [if_neg (hmiss r hr)]
      rfl
    rw [hfil]
    simp [hmap]
  · unfold update_result_user_status
    rw [if_pos hvalid]
    by_cases hpos : 0 < (db.filter fun r => r.id = result_id).length
    · rw [if_pos hpos]
      simpa using key.mp hpos
    · rw [if_neg hpos]
      simp only [Except.ok.injEq]
      constructor
      · intro hh
        exact absurd hh (by simp)
      · intro hh
        exact absurd (key.mpr hh) hpos

/-- C10 witness: a valid status against a table without the requested id returns
false and changes nothing. -/
theorem C10_update_miss_witness :
    update_result_user_status 7
        [{ id := 1, user_status := "pending", user_notes := none, updated_at := 0 }]
        2 "confirmed" none =
      ([{ id := 1, user_status := "pending", user_notes := none, updated_at := 0 }],
        Except.ok false) :=
  (C10_update_miss 7
    [{ id := 1, user_status := "pending", user_notes := none, updated_at := 0 }]
    2 "confirmed" none (by decide)).1 (by decide)

/-! ### Fixtures for C8 and C9 -/

/-- Two rows whose classification outcomes will carry confidences 90 and 30. -/
def dataC8 : List (List (String × String)) :=
  [[("Наименование", "товар девяносто")], [("Наименование", "товар тридцать")]]

/-- Oracle giving confidence 90 to item 0 and 30 to item 1. -/
def callC8 : Nat → Item → CallOutcome := fun k _ =>
  CallOutcome.ok (mkOkResult (if k = 0 then 90 else 30))

/-- C8: on a completed run whose result confidences are [90, 30], the per-tier
counts persisted to the session are high = 1, medium = 1, low = 0 (the code
computes medium = successful - high and low = total - successful), whereas the
claimed three-tier split — the one the repository's own calculate_confidence_stats
implements — gives high = 1, medium = 0, low = 1: the persisted counts violate
the 40-79 medium / below-40 low tiers whenever a result has confidence
strictly between 0 and 40. -/
theorem C8_persisted_tier_counts_bug :
    (process_data_with_ai dataC8 ("Наименование") callC8 cbFalse).persisted_stats =
      some { high := 1, medium := 1, low := 0 } ∧
    calculate_confidence_stats [90, 30] = { high := 1, medium := 0, low := 1 } ∧
    (process_data_with_ai dataC8 ("Наименование") callC8 cbFalse).persisted_stats ≠
      some (calculate_confidence_stats [90, 30]) := by decide

/-- C9: when every row's main-column value is blank after stripping, item
preparation yields nothing and process_data_with_ai returns a batch-level
failure with a descriptive message while the session row is set to failed —
never to completed. -/
theorem C9_no_valid_items (data : List (List (String × String))) (main_column : String)
    (call : Nat → Item → CallOutcome) (cbRaises : Nat → Bool)
    (hblank : ∀ row ∈ data, pyStrip ((row.lookup main_column).getD "") = "") :
    process_data_with_ai data main_column call cbRaises =
      { success := false
        error := some ("Нет данных для обработки")
        session_status := "failed"
        persisted_stats := none } ∧
    (process_data_with_ai data main_column call cbRaises).session_status ≠ "completed" := by
  have hitems : prepare_items_for_processing data main_column = [] := by
    unfold prepare_items_for_processing
    rw [List.filterMap_eq_nil_iff]
    intro p hp
    have hrow : p.2 ∈ data := List.snd_mem_of_mem_enum hp
    simp [hblank p.2 hrow]
  have heq : process_data_with_ai data main_column call cbRaises =
      { success := false
        error := some ("Нет данных для обработки")
        session_status := "failed"
        persisted_stats := none } := by
    unfold process_data_with_ai
    rw [hitems]
    rfl
  exact ⟨heq, by rw [heq]; decide⟩

/-- One row with a blank product name and one row lacking the column entirely. -/
def dataC9 : List (List (String × String)) := [[("Наименование товара", "   ")], []]

/-- C9 witness: an upload whose product names are all blank is reported as a
failed batch. -/
theorem C9_no_valid_items_witness :
    process_data_with_ai dataC9 ("Наименование товара") callC8 cbFalse =
      { success := false
        error := some ("Нет данных для обработки")
        session_status := "failed"
        persisted_stats := none } :=
  (C9_no_valid_items dataC9 ("Наименование товара") callC8 cbFalse (by decide)).1

end AIDec
